import Mathlib

/-!
Verification development for the game4 repository (simulation core of the
survival-horror game in src/main.js, src/unnamed/part_002, src/js/ai.js).
All definitions below are shallow embeddings of the JavaScript source;
floating-point numbers are modelled as rationals, the ambient Math.random
generator is modelled as an explicit stream of draws threaded through the
code that consumes it, and the DOM/audio side effects are dropped while the
state they record (hp, sanity, keys, death reasons) is kept.
-/

namespace Game4

set_option maxRecDepth 1000000

set_option maxHeartbeats 2000000

attribute [local semireducible] Rat.mul Rat.add Rat.sub Rat.inv

/-- Math.max on the rationals modelling JS numbers: the larger argument. -/
def maxQ (a b : ℚ) : ℚ := if a < b then b else a

/-- Math.min on the rationals modelling JS numbers: the smaller argument. -/
def minQ (a b : ℚ) : ℚ := if b < a then b else a

/-- clamp from main.js line 1226: `Math.max(a, Math.min(b, v))`. -/
def clamp (v a b : ℚ) : ℚ := maxQ a (minQ b v)

/-- Game-state slice of STATE (main.js section 2) relevant to the affect model:
hp, sanity, the surface key flag `hasKey`, the pocket key count `keys`,
`inPocket`, and the list of reasons passed to `die()` in order.  `die` writes
`UI.deathReason.textContent`, so the last element of `reasons` is the text a
player ends up seeing. -/
structure GState where
  hp : ℚ
  sanity : ℚ
  hasKey : Bool
  keys : ℕ
  inPocket : Bool
  reasons : List String
deriving DecidableEq

/-- damageHP, main.js 1368-1373: non-positive amounts return early, otherwise
hp is clamped into [0,100] and `die("PHYSICAL TRAUMA CRITICAL")` fires when
the clamped hp is at or below 0. -/
def damageHP (st : GState) (amount : ℚ) : GState :=
  if amount ≤ 0 then st
  else
    let hp2 := clamp (st.hp - amount) 0 100
    if hp2 ≤ 0 then
      { st with hp := hp2, reasons := st.reasons ++ ["PHYSICAL TRAUMA CRITICAL"] }
    else { st with hp := hp2 }

/-- damageSanity, main.js 1374-1380: non-positive amounts return early,
otherwise sanity is clamped into [0,100] and `die("SYSTEM CORRUPTION 100%")`
fires when the clamped sanity is at or below 0.  The whisper/silent audio
parameters do not affect the state modelled here. -/
def damageSanity (st : GState) (amount : ℚ) : GState :=
  if amount ≤ 0 then st
  else
    let s2 := clamp (st.sanity - amount) 0 100
    if s2 ≤ 0 then
      { st with sanity := s2, reasons := st.reasons ++ ["SYSTEM CORRUPTION 100%"] }
    else { st with sanity := s2 }

/-- The attack branch of updateEnemies, main.js 1475-1479: on a landed hit the
code calls `damageHP(CFG.enemyDamageHP * (0.6 + glitch*0.8))` and then
`damageSanity(CFG.enemyDamageSAN * (0.6 + glitch*0.9))`, with
enemyDamageHP = 14 and enemyDamageSAN = 9. -/
def enemyAttack (st : GState) (glitch : ℚ) : GState :=
  damageSanity (damageHP st (14 * (6/10 + glitch * (8/10)))) (9 * (6/10 + glitch * (9/10)))

/-- applyHealth in the spec's vocabulary: a negative delta runs through
damageHP (main.js 1368), a non-negative delta through the healing mutations'
pattern `STATE.hp = clamp(STATE.hp + k, 0, 100)` (medkit pickup main.js 1554,
quick-use main.js 1632, cursed pickup main.js 1561). -/
def applyHealth (st : GState) (delta : ℚ) : GState :=
  if delta < 0 then damageHP st (-delta) else { st with hp := clamp (st.hp + delta) 0 100 }

/-- applySanity in the spec's vocabulary: a negative delta runs through
damageSanity (main.js 1374), a non-negative delta through the healing
mutations' pattern `STATE.sanity = clamp(STATE.sanity + k, 0, 100)`
(comforting note main.js 1946, weapon hit relief main.js 1600). -/
def applySanity (st : GState) (delta : ℚ) : GState :=
  if delta < 0 then damageSanity st (-delta)
  else { st with sanity := clamp (st.sanity + delta) 0 100 }

/-- setFearFromSanity, main.js 1011: `fear = clamp(1 - STATE.sanity/100, 0, 1)`,
a local value recomputed at every call (never stored in STATE). -/
def setFearFromSanityFear (sanity : ℚ) : ℚ := clamp (1 - sanity / 100) 0 1

/-- updateLighting, main.js 1392: the same expression recomputed independently:
`fear = clamp(1 - STATE.sanity/100, 0, 1)`. -/
def updateLightingFear (sanity : ℚ) : ℚ := clamp (1 - sanity / 100) 0 1

/-- computeGlitch, main.js 1383-1389: the glitch value is recomputed from the
current sanity alone — 0 above the jitter threshold 55, a first ramp below it,
a harder ramp below 28, clamped into [0,1]. -/
def computeGlitch (s : ℚ) : ℚ :=
  let g1 : ℚ := 0
  let g2 := if s < 55 then (55 - s) / 55 else g1
  let g3 := if s < 28 then 11/20 + (28 - s) / 28 * (9/20) else g2
  clamp g3 0 1

/-- tick, main.js 2460: `STATE.glitch = computeGlitch()` — the new glitch value
ignores the previous one entirely. -/
def tickGlitch (_prevGlitch s : ℚ) : ℚ := computeGlitch s

/-- CFG.citySize, main.js 53: the surface grid is 48 x 48 cells. -/
def surfaceSize : ℕ := 48

/-- Road predicate in generateSurface, main.js 2003:
`(x % 5 === 0) || (z % 5 === 0)`. -/
def isRoad (x z : ℕ) : Bool := decide (x % 5 = 0) || decide (z % 5 = 0)

/-- initAreaGrids, main.js 1670-1685: all cells cleared, then the border ring is
made solid. -/
def borderSolid (size : ℕ) (c : ℕ × ℕ) : Bool :=
  decide (c.1 = 0) || decide (c.2 = 0) || decide (c.1 = size - 1) || decide (c.2 = size - 1)

/-- The scan order of the building loop in generateSurface, main.js 2001-2011:
z runs over [2, size-2) in the outer loop, x over [2, size-2) in the inner one. -/
def scanCells (size : ℕ) : List (ℕ × ℕ) :=
  (List.range (size - 4)).flatMap (fun dz => (List.range (size - 4)).map (fun dx => (2 + dx, 2 + dz)))

/-- One iteration of the building loop, main.js 2003-2009: road cells are
skipped before any random draw; a non-road cell consumes the next ambient
Math.random() draw and becomes solid when the draw is below 0.18
(addCellSolid, always in bounds here).  The accumulator carries the position
in the ambient stream and the solids map. -/
def buildingsStep (stream : ℕ → ℚ) (acc : ℕ × (ℕ × ℕ → Bool)) (c : ℕ × ℕ) :
    ℕ × (ℕ × ℕ → Bool) :=
  if isRoad c.1 c.2 then acc
  else (acc.1 + 1,
    if stream acc.1 < 18/100 then (fun p => if p = c then true else acc.2 p) else acc.2)

/-- generateSurface, main.js 1985-2120, restricted to the solids grid it
produces: the border ring from initAreaGrids plus the random buildings.  The
ambient Math.random generator is modelled as the explicit stream of its draws;
the function has no seed parameter because the source one has none.  The later
phases of generateSurface (props, notes, items, the single key, the gateway
door alcove) never set a cell solid: the alcove `addCellSolid(area,x,z,0,0)`
runs only on cells whose solids entry is already 0. -/
def generateSurfaceSolids (stream : ℕ → ℚ) : ℕ × ℕ → Bool :=
  ((scanCells surfaceSize).foldl (buildingsStep stream) (0, borderSolid surfaceSize)).2

/-- randInt, main.js 1442: `(Math.random() * n) | 0`, with r the ambient draw
in [0,1). -/
def randInt (r : ℚ) (n : ℕ) : ℤ := ⌊r * (n : ℚ)⌋

/-- The spawn search in the start handler, main.js 2547-2556: up to 8000
tries of x = 2 + randInt(size-4), z = 2 + randInt(size-4), accepting the first
cell whose solids entry is 0.  Every try consumes two ambient draws. -/
def findSpawn (solids : ℕ × ℕ → Bool) (stream : ℕ → ℚ) : ℕ → ℕ → Option (ℕ × ℕ)
  | 0, _ => none
  | fuel + 1, k =>
    let x := 2 + (randInt (stream k) (surfaceSize - 4)).toNat
    let z := 2 + (randInt (stream (k + 1)) (surfaceSize - 4)).toNat
    if solids (x, z) then findSpawn solids stream fuel (k + 2) else some (x, z)

/-- An ambient draw stream where every Math.random() call returns 1/2: no cell
passes the 0.18 building test. -/
def streamHalf : ℕ → ℚ := fun _ => 1/2

/-- An ambient draw stream whose draws number 1, 35, 37 and 71 (the non-road
scan positions of cells (3,2), (2,3), (4,3) and (3,4)) return 0 and all others
return 1/2: exactly those four cells become buildings, enclosing cell (3,3). -/
def streamC : ℕ → ℚ := fun n => if n = 1 ∨ n = 35 ∨ n = 37 ∨ n = 71 then 0 else 1/2

/-- The solids grid generateSurface produces under the streamC draws. -/
def surfaceSolidsC : ℕ × ℕ → Bool := generateSurfaceSolids streamC

/-- 4-neighborhood adjacency of grid cells. -/
def adjCell (p q : ℕ × ℕ) : Prop :=
  (p.1 = q.1 ∧ (p.2 + 1 = q.2 ∨ q.2 + 1 = p.2)) ∨
  (p.2 = q.2 ∧ (p.1 + 1 = q.1 ∨ q.1 + 1 = p.1))

/-- One passable step: move to a 4-neighbor that is inside the grid and not
solid. -/
def stepCell (solids : ℕ × ℕ → Bool) (p q : ℕ × ℕ) : Prop :=
  adjCell p q ∧ q.1 < surfaceSize ∧ q.2 < surfaceSize ∧ solids q = false

/-- Reachability through passable cells (reflexive-transitive closure of
stepCell), the spec's 4-neighborhood BFS reachability. -/
def reachableFrom (solids : ℕ × ℕ → Bool) (p q : ℕ × ℕ) : Prop :=
  Relation.ReflTransGen (stepCell solids) p q

/-- World._r, src/unnamed/part_002 lines 310-313: the generator-owned seeded
LCG `this.seed = (this.seed * 1664525 + 1013904223) >>> 0`, a pure function of
the previous seed state (`>>> 0` is reduction mod 2^32). -/
def worldRNext (seed : ℕ) : ℕ := (seed * 1664525 + 1013904223) % 4294967296

/-- Area data relevant to collision queries in main.js: world-space origin,
grid size (size x size cells), cell edge length, and the solids grid
(`area.solids[id] === 1` becomes `solids gx gz = true`). -/
structure SArea where
  originX : ℚ
  originZ : ℚ
  asize : ℕ
  cell : ℚ
  solids : ℤ → ℤ → Bool

/-- inBounds, main.js 693-695: `x >= 0 && z >= 0 && x < size && z < size`. -/
def inBoundsA (a : SArea) (x z : ℤ) : Bool :=
  decide (0 ≤ x) && decide (0 ≤ z) && decide (x < (a.asize : ℤ)) && decide (z < (a.asize : ℤ))

/-- The offsets -r..r scanned by the loops of collidesAt, main.js 1235-1236. -/
def offs (r : ℕ) : List ℤ := (List.range (2 * r + 1)).map (fun (i : ℕ) => (i : ℤ) - (r : ℤ))

/-- collidesAt, main.js 1231-1258: circle-vs-grid query.  The point's cell
comes from worldToCell (main.js 696-703, floor of the offset divided by the
cell size); the scan radius is ceil(radius/cell)+1; a scanned cell outside the
grid returns true immediately (`outside = solid`); a solid scanned cell
returns true when the closest point of its AABB is strictly within radius. -/
def collidesAt (a : SArea) (x z radius : ℚ) : Bool :=
  (offs ((⌈radius / a.cell⌉).toNat + 1)).any (fun dz =>
    (offs ((⌈radius / a.cell⌉).toNat + 1)).any (fun dx =>
      if inBoundsA a (⌊(x - a.originX) / a.cell⌋ + dx) (⌊(z - a.originZ) / a.cell⌋ + dz) then
        if a.solids (⌊(x - a.originX) / a.cell⌋ + dx) (⌊(z - a.originZ) / a.cell⌋ + dz) then
          decide ((x - clamp x (a.originX + ((⌊(x - a.originX) / a.cell⌋ + dx : ℤ) : ℚ) * a.cell)
                      (a.originX + ((⌊(x - a.originX) / a.cell⌋ + dx : ℤ) : ℚ) * a.cell + a.cell)) *
                  (x - clamp x (a.originX + ((⌊(x - a.originX) / a.cell⌋ + dx : ℤ) : ℚ) * a.cell)
                      (a.originX + ((⌊(x - a.originX) / a.cell⌋ + dx : ℤ) : ℚ) * a.cell + a.cell)) +
                  (z - clamp z (a.originZ + ((⌊(z - a.originZ) / a.cell⌋ + dz : ℤ) : ℚ) * a.cell)
                      (a.originZ + ((⌊(z - a.originZ) / a.cell⌋ + dz : ℤ) : ℚ) * a.cell + a.cell)) *
                  (z - clamp z (a.originZ + ((⌊(z - a.originZ) / a.cell⌋ + dz : ℤ) : ℚ) * a.cell)
                      (a.originZ + ((⌊(z - a.originZ) / a.cell⌋ + dz : ℤ) : ℚ) * a.cell + a.cell))
                  < radius * radius)
        else false
      else true))

/-- Modelled from the spec's words (refinement comparison only): the query
point lies outside the grid's world-space bounds. -/
def specOutOfBounds (a : SArea) (x z : ℚ) : Bool :=
  decide (x < a.originX) || decide (a.originX + (a.asize : ℚ) * a.cell ≤ x) ||
  decide (z < a.originZ) || decide (a.originZ + (a.asize : ℚ) * a.cell ≤ z)

/-- Modelled from the spec's words (refinement comparison only): the query
point lies inside some solid cell's axis-aligned bounds. -/
def specInsideSolidCell (a : SArea) (x z : ℚ) : Bool :=
  (List.range a.asize).any (fun gzn => (List.range a.asize).any (fun gxn =>
    a.solids (gxn : ℤ) (gzn : ℤ) &&
    decide (a.originX + (gxn : ℚ) * a.cell ≤ x ∧ x ≤ a.originX + (gxn : ℚ) * a.cell + a.cell ∧
            a.originZ + (gzn : ℚ) * a.cell ≤ z ∧ z ≤ a.originZ + (gzn : ℚ) * a.cell + a.cell)))

/-- A small concrete area in the shape the generators produce (origin 0,
cell size 1, 8 x 8 cells, a single solid cell at (4,4)). -/
def areaC7 : SArea :=
  { originX := 0, originZ := 0, asize := 8, cell := 1,
    solids := fun gx gz => decide (gx = 4 ∧ gz = 4) }

/-- resolveMovement, main.js 1260-1278, position component: the X axis then
the Z axis are resolved independently against collidesAt, and a blocked axis
keeps the previous coordinate (the velocity damping on the blocked axis does
not affect the position). -/
def resolveMovement (a : SArea) (p desired : ℚ × ℚ) (radius : ℚ) : ℚ × ℚ :=
  let x1 := if collidesAt a desired.1 p.2 radius = false then desired.1 else p.1
  let z1 := if collidesAt a x1 desired.2 radius = false then desired.2 else p.2
  (x1, z1)

/-- The collision world of src/unnamed/part_002's World class: cell size,
grid dimensions, and the wall grid (`isWallCell`). -/
structure PWorld where
  cell : ℚ
  gridW : ℕ
  gridH : ℕ
  grid : ℤ → ℤ → Bool

/-- Bounds test inside collideSphere's loop, part_002 line 1092:
`x<0||z<0||x>=gridW||z>=gridH` means skip (here: its negation). -/
def inBoundsW (w : PWorld) (x z : ℤ) : Bool :=
  decide (0 ≤ x) && decide (0 ≤ z) && decide (x < (w.gridW : ℤ)) && decide (z < (w.gridH : ℤ))

/-- World.worldToCell, part_002 316-321: floor of the coordinate divided by
the cell size, clamped into the grid. -/
def p2WorldToCell (w : PWorld) (x z : ℚ) : ℤ × ℤ :=
  (max 0 (min ((w.gridW : ℤ) - 1) ⌊x / w.cell⌋),
   max 0 (min ((w.gridH : ℤ) - 1) ⌊z / w.cell⌋))

/-- The closest point of cell cc's AABB to p on the X axis, part_002
1094-1102: `wx = cellToWorld` gives the center `cc.1*cell + cell*0.5`, the
AABB is center +- cell*0.5, and `px = clamp(pos.x, minX, maxX)`. -/
def closestX (w : PWorld) (p : ℚ × ℚ) (cc : ℤ × ℤ) : ℚ :=
  clamp p.1 ((cc.1 : ℚ) * w.cell + w.cell * (1/2) - w.cell * (1/2))
    ((cc.1 : ℚ) * w.cell + w.cell * (1/2) + w.cell * (1/2))

/-- The closest point of cell cc's AABB to p on the Z axis (as closestX). -/
def closestZ (w : PWorld) (p : ℚ × ℚ) (cc : ℤ × ℤ) : ℚ :=
  clamp p.2 ((cc.2 : ℚ) * w.cell + w.cell * (1/2) - w.cell * (1/2))
    ((cc.2 : ℚ) * w.cell + w.cell * (1/2) + w.cell * (1/2))

/-- `d2 = dxp*dxp + dzp*dzp` of collideSphere, part_002 1104-1106. -/
def cellDistSq (w : PWorld) (p : ℚ × ℚ) (cc : ℤ × ℤ) : ℚ :=
  (p.1 - closestX w p cc) * (p.1 - closestX w p cc) +
  (p.2 - closestZ w p cc) * (p.2 - closestZ w p cc)

/-- One cell of World.collideSphere's 3x3 loop, part_002 1089-1114: skip cells
outside the grid, skip non-wall cells, and push p out of the AABB only when
`d2 < radius*radius && d2 > 0.000001`; the push scales (dxp, dzp) by
`(radius - d)/d` with `d = Math.sqrt(d2)`.  Math.sqrt is a floating-point
primitive and is abstracted as the function parameter sq; every theorem below
holds for all sq. -/
def collideCellStep (w : PWorld) (sq : ℚ → ℚ) (radius : ℚ) (p : ℚ × ℚ) (cc : ℤ × ℤ) : ℚ × ℚ :=
  if inBoundsW w cc.1 cc.2 then
    if w.grid cc.1 cc.2 then
      if cellDistSq w p cc < radius * radius ∧ 1/1000000 < cellDistSq w p cc then
        (p.1 + (p.1 - closestX w p cc) * ((radius - sq (cellDistSq w p cc)) / sq (cellDistSq w p cc)),
         p.2 + (p.2 - closestZ w p cc) * ((radius - sq (cellDistSq w p cc)) / sq (cellDistSq w p cc)))
      else p
    else p
  else p

/-- The 3x3 neighborhood scanned by collideSphere, part_002 1089-1090 (dz
outer, dx inner, around the cell of the initial position). -/
def neighborCells (c : ℤ × ℤ) : List (ℤ × ℤ) :=
  (offs 1).flatMap (fun dz => (offs 1).map (fun dx => (c.1 + dx, c.2 + dz)))

/-- World.collideSphere, part_002 1086-1116: the cell of the initial position
is computed once, then the nine neighbor cells are processed in order, each
push acting on the position produced so far. -/
def collideSphere (w : PWorld) (sq : ℚ → ℚ) (p : ℚ × ℚ) (radius : ℚ) : ℚ × ℚ :=
  (neighborCells (p2WorldToCell w p.1 p.2)).foldl (collideCellStep w sq radius) p

/-- All in-bounds cells of a PWorld, used to state collision-freedom. -/
def allCells (w : PWorld) : List (ℤ × ℤ) :=
  (List.range w.gridH).flatMap
    (fun (gz : ℕ) => (List.range w.gridW).map (fun (gx : ℕ) => ((gx : ℤ), (gz : ℤ))))

/-- A 1x1 world with cell size 2 whose only cell is a wall: used by the
witness below. -/
def wC9 : PWorld := ⟨2, 1, 1, fun _ _ => true⟩

/-- Door kinds of spawnDoor, main.js 1854: "pocketGate" (surface gateway),
"pocketDoor" (inner pocket door), "exitDoor" (pocket exit). -/
inductive DoorKind
  | pocketGate
  | pocketDoor
  | exitDoor
deriving DecidableEq

/-- A door record from spawnDoor, main.js 1851-1857: kind, locked and open
flags, and the grid cell the door sits on. -/
structure Door where
  kind : DoorKind
  locked : Bool
  opened : Bool
  cx : ℤ
  cz : ℤ
deriving DecidableEq

/-- addCellSolid, main.js 1687-1692, restricted to the solids write: guarded
by inBounds, sets the cell's solids entry. -/
def addCellSolid (size : ℕ) (solids : ℤ → ℤ → Bool) (x z : ℤ) (v : Bool) : ℤ → ℤ → Bool :=
  if 0 ≤ x ∧ 0 ≤ z ∧ x < (size : ℤ) ∧ z < (size : ℤ) then
    fun a b => if a = x ∧ b = z then v else solids a b
  else solids

/-- CFG.pocket.areaSize, main.js 74: the pocket grid is 80 x 80 cells. -/
def pocketSize : ℕ := 80

/-- CFG.pocket.keyCount, main.js 77. -/
def keyCount : ℕ := 4

/-- onDoorInteract, main.js 1871-1916.  pocketGate: without STATE.hasKey the
door laughs (damageSanity 4) and nothing else happens, with the key
enterPocket() runs (STATE.inPocket := true, STATE.keys := 0, fresh pocket).
exitDoor: locked means only a whisper, unlocked means die("YOU ESCAPED (…FOR
NOW)").  pocketDoor: locked with a key consumes one key and unlocks, locked
without keys costs 2 sanity and returns, and any non-returning path opens the
door and clears its cell's solids entry (addCellSolid with 0). -/
def onDoorInteract (size : ℕ) (st : GState) (d : Door) (solids : ℤ → ℤ → Bool) :
    GState × Door × (ℤ → ℤ → Bool) :=
  match d.kind with
  | DoorKind.pocketGate =>
    if st.hasKey = false then (damageSanity st 4, d, solids)
    else ({ st with inPocket := true, keys := 0 }, d, solids)
  | DoorKind.exitDoor =>
    if d.locked then (st, d, solids)
    else ({ st with reasons := st.reasons ++ ["YOU ESCAPED (…FOR NOW)"] }, d, solids)
  | DoorKind.pocketDoor =>
    if d.locked then
      if 0 < st.keys then
        ({ st with keys := st.keys - 1 },
         { d with locked := false, opened := true },
         addCellSolid size solids d.cx d.cz false)
      else (damageSanity st 2, d, solids)
    else (st, { d with opened := true }, addCellSolid size solids d.cx d.cz false)

/-- updateExitUnlock, main.js 2339-2353: outside the pocket, or without an
exit cell/exit door, nothing changes; otherwise the exit door's locked flag
becomes keys < CFG.pocket.keyCount. -/
def updateExitUnlock (st : GState) (exitPresent : Bool) (d : Door) : Door :=
  if st.inPocket = false then d
  else if exitPresent = false then d
  else if keyCount ≤ st.keys then { d with locked := false }
  else { d with locked := true }

/-- The border-ring solids grid of a freshly generated pocket in the region
where doors are placed (main.js 2270-2284 requires `solids[idx] === 0` at the
door cell, so door cells are always passable). -/
def solidsP : ℤ → ℤ → Bool :=
  fun x z => decide (x = 0 ∨ z = 0 ∨ x = 79 ∨ z = 79)

def stC8 : GState := ⟨100, 50, false, 0, true, []⟩

def dExitLocked : Door := ⟨DoorKind.exitDoor, true, false, 10, 10⟩

def dPockLocked : Door := ⟨DoorKind.pocketDoor, true, false, 5, 5⟩

def dGateC : Door := ⟨DoorKind.pocketGate, true, false, 7, 7⟩

theorem maxQ_eq (a b : ℚ) : maxQ a b = max a b := by
  unfold maxQ
  by_cases h : a < b
  · rw [if_pos h, max_eq_right h.le]
  · rw [if_neg h, max_eq_left (not_lt.mp h)]

theorem minQ_eq (a b : ℚ) : minQ a b = min a b := by
  unfold minQ
  by_cases h : b < a
  · rw [if_pos h, min_eq_right h.le]
  · rw [if_neg h, min_eq_left (not_lt.mp h)]

theorem clamp_def (v a b : ℚ) : clamp v a b = max a (min b v) := by
  unfold clamp
  rw [maxQ_eq, minQ_eq]

theorem le_clamp (v a b : ℚ) : a ≤ clamp v a b := by
  rw [clamp_def]
  exact le_max_left a _

theorem clamp_le (v a b : ℚ) (h : a ≤ b) : clamp v a b ≤ b := by
  rw [clamp_def]
  exact max_le h (min_le_left b v)

theorem clamp_eq_of_mem (v a b : ℚ) (h1 : a ≤ v) (h2 : v ≤ b) : clamp v a b = v := by
  rw [clamp_def, min_eq_right h2, max_eq_right h1]

theorem clamp_le_zero_iff (v : ℚ) : clamp v 0 100 ≤ 0 ↔ v ≤ 0 := by
  rw [clamp_def]
  constructor
  · intro h
    rcases le_total v 100 with h2 | h2
    · rw [min_eq_right h2] at h
      exact le_trans (le_max_right 0 v) h
    · rw [min_eq_left h2] at h
      have := le_trans (le_max_right (0 : ℚ) 100) h
      linarith
  · intro h
    exact max_le le_rfl (le_trans (min_le_right 100 v) h)

theorem damageHP_hp (st : GState) (a : ℚ) :
    (damageHP st a).hp = if a ≤ 0 then st.hp else clamp (st.hp - a) 0 100 := by
  unfold damageHP
  by_cases h : a ≤ 0
  · simp [h]
  · by_cases h2 : clamp (st.hp - a) 0 100 ≤ 0 <;> simp [h, h2]

theorem damageSanity_sanity (st : GState) (a : ℚ) :
    (damageSanity st a).sanity = if a ≤ 0 then st.sanity else clamp (st.sanity - a) 0 100 := by
  unfold damageSanity
  by_cases h : a ≤ 0
  · simp [h]
  · by_cases h2 : clamp (st.sanity - a) 0 100 ≤ 0 <;> simp [h, h2]

theorem damageHP_eq (st : GState) (a : ℚ) (ha : 0 < a) :
    damageHP st a =
      { st with hp := clamp (st.hp - a) 0 100,
                reasons := st.reasons ++
                  if st.hp ≤ a then ["PHYSICAL TRAUMA CRITICAL"] else [] } := by
  unfold damageHP
  rw [if_neg (not_le.mpr ha)]
  by_cases h : st.hp ≤ a
  · rw [if_pos ((clamp_le_zero_iff _).mpr (by linarith)), if_pos h]
  · rw [if_neg (by rw [clamp_le_zero_iff]; intro hc; exact h (by linarith)), if_neg h]
    simp

theorem damageSanity_eq (st : GState) (a : ℚ) (ha : 0 < a) :
    damageSanity st a =
      { st with sanity := clamp (st.sanity - a) 0 100,
                reasons := st.reasons ++
                  if st.sanity ≤ a then ["SYSTEM CORRUPTION 100%"] else [] } := by
  unfold damageSanity
  rw [if_neg (not_le.mpr ha)]
  by_cases h : st.sanity ≤ a
  · rw [if_pos ((clamp_le_zero_iff _).mpr (by linarith)), if_pos h]
  · rw [if_neg (by rw [clamp_le_zero_iff]; intro hc; exact h (by linarith)), if_neg h]
    simp

theorem applyHealth_hp (st : GState) (delta : ℚ) :
    (applyHealth st delta).hp = clamp (st.hp + delta) 0 100 := by
  unfold applyHealth
  by_cases h : delta < 0
  · rw [if_pos h, damageHP_hp, if_neg (by linarith), sub_neg_eq_add]
  · rw [if_neg h]

theorem applySanity_sanity (st : GState) (delta : ℚ) :
    (applySanity st delta).sanity = clamp (st.sanity + delta) 0 100 := by
  unfold applySanity
  by_cases h : delta < 0
  · rw [if_pos h, damageSanity_sanity, if_neg (by linarith), sub_neg_eq_add]
  · rw [if_neg h]

theorem clamp_add_le_self (v delta : ℚ) (h0 : 0 ≤ v) (hd : delta ≤ 0) :
    clamp (v + delta) 0 100 ≤ v := by
  rw [clamp_def]
  exact max_le h0 (le_trans (min_le_right 100 (v + delta)) (by linarith))

theorem self_le_clamp_add (v delta : ℚ) (h1 : v ≤ 100) (hd : 0 ≤ delta) :
    v ≤ clamp (v + delta) 0 100 := by
  rw [clamp_def]
  exact le_trans (le_min h1 (by linarith)) (le_max_right 0 (min 100 (v + delta)))

/-- C1: for every in-range initial health and sanity and every delta, applying
a health or sanity change (damageHP/damageSanity for negative deltas, the
healing clamp mutations for positive ones) keeps the value inside [0,100] and
moves it monotonically in the sign of the delta; in particular starting from
sanity 10 a change of -50 yields sanity 0, not -40. -/
theorem c1_applyHealthSanity (st : GState) (delta : ℚ)
    (hh0 : 0 ≤ st.hp) (hh1 : st.hp ≤ 100) (hs0 : 0 ≤ st.sanity) (hs1 : st.sanity ≤ 100) :
    (0 ≤ (applyHealth st delta).hp ∧ (applyHealth st delta).hp ≤ 100 ∧
      (delta ≤ 0 → (applyHealth st delta).hp ≤ st.hp) ∧
      (0 ≤ delta → st.hp ≤ (applyHealth st delta).hp)) ∧
    (0 ≤ (applySanity st delta).sanity ∧ (applySanity st delta).sanity ≤ 100 ∧
      (delta ≤ 0 → (applySanity st delta).sanity ≤ st.sanity) ∧
      (0 ≤ delta → st.sanity ≤ (applySanity st delta).sanity)) ∧
    (applySanity { st with sanity := 10 } (-50)).sanity = 0 := by
  rw [applyHealth_hp, applySanity_sanity, applySanity_sanity]
  refine ⟨⟨le_clamp _ _ _, clamp_le _ _ _ (by norm_num), ?_, ?_⟩,
    ⟨le_clamp _ _ _, clamp_le _ _ _ (by norm_num), ?_, ?_⟩, ?_⟩
  · exact fun hd => clamp_add_le_self _ _ hh0 hd
  · exact fun hd => self_le_clamp_add _ _ hh1 hd
  · exact fun hd => clamp_add_le_self _ _ hs0 hd
  · exact fun hd => self_le_clamp_add _ _ hs1 hd
  · show clamp ((10 : ℚ) + (-50)) 0 100 = 0
    rw [clamp_def]
    norm_num

theorem c1_witness :
    (applySanity { (⟨50, 50, false, 0, false, []⟩ : GState) with sanity := 10 } (-50)).sanity
      = 0 :=
  (c1_applyHealthSanity ⟨50, 50, false, 0, false, []⟩ 7
    (by norm_num) (by norm_num) (by norm_num) (by norm_num)).2.2

/-- C2: fear is a pure function of sanity computed identically at both per-tick
sites (audio and lighting), always lies in [0,1], and for sanity in [0,100]
equals 1 - sanity/100 exactly. -/
theorem c2_fearFromSanity (s : ℚ) :
    setFearFromSanityFear s = updateLightingFear s ∧
    0 ≤ setFearFromSanityFear s ∧ setFearFromSanityFear s ≤ 1 ∧
    (0 ≤ s → s ≤ 100 → setFearFromSanityFear s = 1 - s / 100) := by
  refine ⟨rfl, le_clamp _ _ _, clamp_le _ _ _ (by norm_num), fun h1 h2 => ?_⟩
  exact clamp_eq_of_mem _ _ _ (by linarith) (by linarith)

theorem c2_witness : setFearFromSanityFear 30 = 1 - 30 / 100 :=
  (c2_fearFromSanity 30).2.2.2 (by norm_num) (by norm_num)

/-- C3: counterexample.  With hp = 5, sanity = 5 and glitch 0 a single enemy
attack drives both stats to 0: damageHP reports the trauma reason and then
damageSanity still runs and reports the corruption reason.  Two terminal
reasons are reported in one tick, and the last (displayed) one is the
corruption text, not the trauma one. -/
theorem c3_counterexample :
    (enemyAttack ⟨5, 5, false, 0, true, []⟩ 0).reasons =
      ["PHYSICAL TRAUMA CRITICAL", "SYSTEM CORRUPTION 100%"] ∧
    (enemyAttack ⟨5, 5, false, 0, true, []⟩ 0).reasons.getLast?
      ≠ some "PHYSICAL TRAUMA CRITICAL" ∧
    (enemyAttack ⟨5, 5, false, 0, true, []⟩ 0).reasons.length ≠ 1 := by
  refine ⟨by decide, by decide, by decide⟩

/-- C3 amended: `die()` does not stop the surrounding tick, so each damage
routine appends its own reason when its stat reaches 0.  In an enemy attack HP
damage runs before sanity damage, so when both stats reach 0 in the same
attack the trauma reason is reported first and the corruption reason second;
the displayed reason is the last one reported. -/
theorem c3_amended (st : GState) (g : ℚ) (hg : 0 ≤ g) :
    (enemyAttack st g).reasons =
      st.reasons
        ++ (if st.hp ≤ 14 * (6/10 + g * (8/10)) then ["PHYSICAL TRAUMA CRITICAL"] else [])
        ++ (if st.sanity ≤ 9 * (6/10 + g * (9/10)) then ["SYSTEM CORRUPTION 100%"] else []) := by
  have hhp : (0 : ℚ) < 14 * (6/10 + g * (8/10)) := by nlinarith
  have hsan : (0 : ℚ) < 9 * (6/10 + g * (9/10)) := by nlinarith
  unfold enemyAttack
  rw [damageHP_eq st _ hhp, damageSanity_eq _ _ hsan]

theorem c3_witness :
    (enemyAttack ⟨100, 3, false, 0, true, []⟩ 0).reasons = ["SYSTEM CORRUPTION 100%"] := by
  have h := c3_amended ⟨100, 3, false, 0, true, []⟩ 0 (by norm_num)
  rw [h]
  decide

/-- C4: counterexample.  Start a tick with glitch 0 and sanity 0 and no
discrete events: under the claimed law (decay `glitch -= decayRate*dt` floored
at 0, plus event increments) glitch would stay 0, but the code's tick assigns
`computeGlitch(0) = 1` — glitch jumps from 0 to 1 without any event. -/
theorem c4_counterexample : tickGlitch 0 0 = 1 ∧ tickGlitch 0 0 ≠ 0 := by
  refine ⟨by decide, by decide⟩

/-- C4 amended: glitch is not stateful — each tick it is recomputed as a pure
function of sanity (the previous glitch is ignored and no event increments
exist): 0 for sanity at or above 55, the soft ramp on [28, 55), the hard ramp
below 28, and it is always clamped into [0,1]. -/
theorem c4_amended :
    (∀ g g2 s : ℚ, tickGlitch g s = tickGlitch g2 s) ∧
    (∀ s : ℚ, 0 ≤ computeGlitch s ∧ computeGlitch s ≤ 1) ∧
    (∀ s : ℚ, 55 ≤ s → computeGlitch s = 0) ∧
    (∀ s : ℚ, 28 ≤ s → s < 55 → computeGlitch s = clamp ((55 - s) / 55) 0 1) ∧
    (∀ s : ℚ, s < 28 → computeGlitch s = clamp (11/20 + (28 - s) / 28 * (9/20)) 0 1) := by
  refine ⟨fun g g2 s => rfl,
    fun s => ⟨le_clamp _ _ _, clamp_le _ _ _ (by norm_num)⟩, fun s h => ?_,
    fun s h1 h2 => ?_, fun s h => ?_⟩
  · simp only [computeGlitch]
    rw [if_neg (by linarith : ¬ s < 28), if_neg (by linarith : ¬ s < 55), clamp_def]
    norm_num
  · simp only [computeGlitch]
    rw [if_neg (by linarith : ¬ s < 28), if_pos h2]
  · simp only [computeGlitch]
    rw [if_pos h]

theorem c4_witness : computeGlitch 60 = 0 :=
  c4_amended.2.2.1 60 (by norm_num)

theorem not_reachable_of_enclosed (solids : ℕ × ℕ → Bool) (a c : ℕ × ℕ)
    (hne : c ≠ a) (hnadj : ¬ adjCell a c)
    (hwall : ∀ b, adjCell b c → solids b = true) :
    ¬ reachableFrom solids a c := by
  intro h
  rcases Relation.ReflTransGen.cases_tail h with h1 | ⟨b, hab, hbc⟩
  · exact hne h1
  · rcases Relation.ReflTransGen.cases_tail hab with h2 | ⟨d, _, hdb⟩
    · subst h2
      exact hnadj hbc.1
    · have hw := hwall b hbc.1
      have hf := hdb.2.2.2
      rw [hw] at hf
      exact Bool.noConfusion hf

theorem adj_of_33 (b : ℕ × ℕ) (h : adjCell b (3, 3)) :
    b = (3, 2) ∨ b = (3, 4) ∨ b = (2, 3) ∨ b = (4, 3) := by
  obtain ⟨bx, bz⟩ := b
  simp only [Prod.mk.injEq]
  rcases h with ⟨h1, h2 | h2⟩ | ⟨h1, h2 | h2⟩ <;> simp only at h1 h2 <;> omega

theorem surfaceSolidsC_at_33 : surfaceSolidsC (3, 3) = false := by decide

theorem surfaceSolidsC_at_22 : surfaceSolidsC (2, 2) = false := by decide

theorem surfaceSolidsC_at_32 : surfaceSolidsC (3, 2) = true := by decide

theorem surfaceSolidsC_at_34 : surfaceSolidsC (3, 4) = true := by decide

theorem surfaceSolidsC_at_23 : surfaceSolidsC (2, 3) = true := by decide

theorem surfaceSolidsC_at_43 : surfaceSolidsC (4, 3) = true := by decide

theorem streamHalf_at_23 : generateSurfaceSolids streamHalf (2, 3) = false := by decide

theorem spawnC : findSpawn surfaceSolidsC (fun _ => 0) 8000 0 = some (2, 2) := by decide

theorem enclosed_33 : ¬ reachableFrom surfaceSolidsC (2, 2) (3, 3) := by
  apply not_reachable_of_enclosed
  · intro h
    exact absurd (congrArg Prod.fst h) (by decide)
  · intro h
    rcases h with ⟨h1, _⟩ | ⟨h1, _⟩ <;> simp only at h1 <;> omega
  · intro b hb
    rcases adj_of_33 b hb with rfl | rfl | rfl | rfl
    · exact surfaceSolidsC_at_32
    · exact surfaceSolidsC_at_34
    · exact surfaceSolidsC_at_23
    · exact surfaceSolidsC_at_43

theorem gen_differs_on_streams :
    generateSurfaceSolids streamHalf ≠ generateSurfaceSolids streamC := by
  intro h
  have h2 := congrFun h (2, 3)
  have hL : generateSurfaceSolids streamHalf (2, 3) = false := streamHalf_at_23
  have hR : generateSurfaceSolids streamC (2, 3) = true := surfaceSolidsC_at_23
  rw [hL, hR] at h2
  exact Bool.noConfusion h2

/-- C5: counterexample.  All explicit generation parameters are identical by
construction — the main.js generators take no seed at all and every random
decision goes through the ambient Math.random stream (randInt, main.js 1442) —
yet two runs with different ambient draws produce different solids grids (they
differ at cell (2,3)).  Generation is therefore not a function of
(seed, size, mode, params). -/
theorem c5_counterexample :
    ¬ ∀ s1 s2 : ℕ → ℚ, generateSurfaceSolids s1 = generateSurfaceSolids s2 := by
  intro h
  exact gen_differs_on_streams (h streamHalf streamC)

/-- C5 amended: area generation is not seed-deterministic.  The main.js
generators draw from the ambient unseeded Math.random stream and take no seed
parameter, so runs with identical (seed, size, mode, params) can produce
different Areas; only draws made through part_002's World._r LCG
(seed <- (seed * 1664525 + 1013904223) >>> 0) are determined by the seed, and
even World.generate mixes ambient rand/irand draws with that stream. -/
theorem c5_amended :
    (∃ s1 s2 : ℕ → ℚ, generateSurfaceSolids s1 ≠ generateSurfaceSolids s2) ∧
    (∀ seed : ℕ, worldRNext seed = (seed * 1664525 + 1013904223) % 4294967296 ∧
      worldRNext seed < 4294967296) :=
  ⟨⟨streamHalf, streamC, gen_differs_on_streams⟩,
    fun seed => ⟨rfl, Nat.mod_lt _ (by norm_num)⟩⟩

/-- C6: counterexample.  Under the streamC ambient draws the surface generator
produces buildings enclosing the passable cell (3,3) on all four sides; the
spawn search of the start handler (drawing zeros) designates cell (2,2) as the
spawn; the passable cell (3,3) is not reachable from spawn by 4-neighborhood
steps through passable cells. -/
theorem c6_counterexample :
    surfaceSolidsC (3, 3) = false ∧
    findSpawn surfaceSolidsC (fun _ => 0) 8000 0 = some (2, 2) ∧
    ¬ reachableFrom surfaceSolidsC (2, 2) (3, 3) :=
  ⟨surfaceSolidsC_at_33, spawnC, enclosed_33⟩

/-- C6 amended: reachability of every passable cell from the spawn cell is not
guaranteed.  In block (surface) mode a passable cell can be enclosed by
randomly placed building cells, and the generator runs no verification pass,
so there are ambient draw streams under which a generated Area has a passable
cell that is unreachable from the designated spawn cell. -/
theorem c6_amended :
    ∃ (stream spawnStream : ℕ → ℚ) (spawn target : ℕ × ℕ),
      findSpawn (generateSurfaceSolids stream) spawnStream 8000 0 = some spawn ∧
      generateSurfaceSolids stream target = false ∧
      ¬ reachableFrom (generateSurfaceSolids stream) spawn target :=
  ⟨streamC, fun _ => 0, (2, 2), (3, 3), spawnC, surfaceSolidsC_at_33, enclosed_33⟩

theorem zero_mem_offs (r : ℕ) : (0 : ℤ) ∈ offs r := by
  unfold offs
  have hm : r ∈ List.range (2 * r + 1) := by
    rw [List.mem_range]
    omega
  have h := List.mem_map_of_mem (fun i : ℕ => (i : ℤ) - (r : ℤ)) hm
  have h2 : ((r : ℤ) - (r : ℤ)) ∈ (List.range (2 * r + 1)).map (fun i : ℕ => (i : ℤ) - (r : ℤ)) := h
  rw [sub_self] at h2
  exact h2

theorem mem_offs (r : ℕ) (d : ℤ) (h1 : -(r : ℤ) ≤ d) (h2 : d ≤ (r : ℤ)) : d ∈ offs r := by
  unfold offs
  have hm : (d + (r : ℤ)).toNat ∈ List.range (2 * r + 1) := by
    rw [List.mem_range]
    omega
  have h := List.mem_map_of_mem (fun i : ℕ => (i : ℤ) - (r : ℤ)) hm
  have h3 : (((d + (r : ℤ)).toNat : ℤ) - (r : ℤ))
      ∈ (List.range (2 * r + 1)).map (fun i : ℕ => (i : ℤ) - (r : ℤ)) := h
  have he : (((d + (r : ℤ)).toNat : ℤ) - (r : ℤ)) = d := by omega
  rw [he] at h3
  exact h3

/-- C7: counterexample.  The point (3.9, 4.5) of areaC7 is inside the grid
bounds and inside no solid cell's AABB, yet collidesAt with the player radius
0.38 reports it blocked (the circle overlaps the solid cell (4,4)): blocked is
not equivalent to `outside bounds or inside a solid cell's bounds`. -/
theorem c7_counterexample :
    collidesAt areaC7 (39/10) (9/2) (19/50) = true ∧
    specOutOfBounds areaC7 (39/10) (9/2) = false ∧
    specInsideSolidCell areaC7 (39/10) (9/2) = false := by
  refine ⟨by decide, by decide, by decide⟩

/-- C7 amended: collidesAt is conservative rather than exact — every query
point outside the grid bounds is blocked (and the query is a total function,
so it never throws), and with a positive radius every point inside a solid
in-bounds cell's AABB is blocked; but the converse fails, since points within
radius of a solid cell, or whose scan neighborhood leaves the grid, are
blocked too. -/
theorem c7_amended :
    (∀ (a : SArea) (x z radius : ℚ), 0 < a.cell → specOutOfBounds a x z = true →
      collidesAt a x z radius = true) ∧
    (∀ (a : SArea) (x z radius : ℚ), 0 < a.cell → 0 < radius →
      specInsideSolidCell a x z = true → collidesAt a x z radius = true) := by
  constructor
  · intro a x z radius hc hout
    simp only [specOutOfBounds, Bool.or_eq_true, decide_eq_true_eq] at hout
    unfold collidesAt
    rw [List.any_eq_true]
    refine ⟨0, zero_mem_offs _, ?_⟩
    rw [List.any_eq_true]
    refine ⟨0, zero_mem_offs _, ?_⟩
    rw [if_neg]
    intro hb
    simp only [inBoundsA, Bool.and_eq_true, decide_eq_true_eq] at hb
    obtain ⟨⟨⟨hb1, hb2⟩, hb3⟩, hb4⟩ := hb
    rcases hout with ((h | h) | h) | h
    · have hneg : ⌊(x - a.originX) / a.cell⌋ < 0 := by
        rw [Int.floor_lt]
        push_cast
        exact div_neg_of_neg_of_pos (by linarith) hc
      omega
    · have hge : ((a.asize : ℤ) : ℤ) ≤ ⌊(x - a.originX) / a.cell⌋ := by
        rw [Int.le_floor]
        push_cast
        rw [le_div_iff₀ hc]
        linarith
      omega
    · have hneg : ⌊(z - a.originZ) / a.cell⌋ < 0 := by
        rw [Int.floor_lt]
        push_cast
        exact div_neg_of_neg_of_pos (by linarith) hc
      omega
    · have hge : ((a.asize : ℤ) : ℤ) ≤ ⌊(z - a.originZ) / a.cell⌋ := by
        rw [Int.le_floor]
        push_cast
        rw [le_div_iff₀ hc]
        linarith
      omega
  · intro a x z radius hc hr hin
    simp only [specInsideSolidCell, List.any_eq_true, Bool.and_eq_true,
      decide_eq_true_eq, List.mem_range] at hin
    obtain ⟨gzn, hgzn, gxn, hgxn, hsolid, hx1, hx2, hz1, hz2⟩ := hin
    have hcx1 : (gxn : ℤ) ≤ ⌊(x - a.originX) / a.cell⌋ := by
      rw [Int.le_floor]
      push_cast
      rw [le_div_iff₀ hc]
      linarith
    have hcx2 : ⌊(x - a.originX) / a.cell⌋ ≤ (gxn : ℤ) + 1 := by
      have : (x - a.originX) / a.cell ≤ ((gxn : ℚ) + 1) := by
        rw [div_le_iff₀ hc]
        have : ((gxn : ℚ) + 1) * a.cell = (gxn : ℚ) * a.cell + a.cell := by ring
        linarith [this]
      calc ⌊(x - a.originX) / a.cell⌋ ≤ ⌊((gxn : ℚ) + 1)⌋ := Int.floor_le_floor this
        _ = (gxn : ℤ) + 1 := by
            rw [show ((gxn : ℚ) + 1) = (((gxn : ℤ) + 1 : ℤ) : ℚ) by push_cast; ring]
            exact Int.floor_intCast _
    have hcz1 : (gzn : ℤ) ≤ ⌊(z - a.originZ) / a.cell⌋ := by
      rw [Int.le_floor]
      push_cast
      rw [le_div_iff₀ hc]
      linarith
    have hcz2 : ⌊(z - a.originZ) / a.cell⌋ ≤ (gzn : ℤ) + 1 := by
      have : (z - a.originZ) / a.cell ≤ ((gzn : ℚ) + 1) := by
        rw [div_le_iff₀ hc]
        have : ((gzn : ℚ) + 1) * a.cell = (gzn : ℚ) * a.cell + a.cell := by ring
        linarith [this]
      calc ⌊(z - a.originZ) / a.cell⌋ ≤ ⌊((gzn : ℚ) + 1)⌋ := Int.floor_le_floor this
        _ = (gzn : ℤ) + 1 := by
            rw [show ((gzn : ℚ) + 1) = (((gzn : ℤ) + 1 : ℤ) : ℚ) by push_cast; ring]
            exact Int.floor_intCast _
    unfold collidesAt
    rw [List.any_eq_true]
    have hrpos : 1 ≤ (⌈radius / a.cell⌉).toNat + 1 := Nat.le_add_left 1 _
    refine ⟨(gzn : ℤ) - ⌊(z - a.originZ) / a.cell⌋, mem_offs _ _ (by omega) (by omega), ?_⟩
    rw [List.any_eq_true]
    refine ⟨(gxn : ℤ) - ⌊(x - a.originX) / a.cell⌋, mem_offs _ _ (by omega) (by omega), ?_⟩
    have hgx : ⌊(x - a.originX) / a.cell⌋ + ((gxn : ℤ) - ⌊(x - a.originX) / a.cell⌋) = (gxn : ℤ) := by
      omega
    have hgz : ⌊(z - a.originZ) / a.cell⌋ + ((gzn : ℤ) - ⌊(z - a.originZ) / a.cell⌋) = (gzn : ℤ) := by
      omega
    rw [hgx, hgz]
    rw [if_pos (by
      simp only [inBoundsA, Bool.and_eq_true, decide_eq_true_eq]
      refine ⟨⟨⟨by positivity, by positivity⟩, by exact_mod_cast hgxn⟩,
        by exact_mod_cast hgzn⟩)]
    rw [if_pos hsolid]
    have hclx : clamp x (a.originX + (((gxn : ℤ) : ℤ) : ℚ) * a.cell)
        (a.originX + (((gxn : ℤ) : ℤ) : ℚ) * a.cell + a.cell) = x := by
      apply clamp_eq_of_mem
      · push_cast
        linarith
      · push_cast
        linarith
    have hclz : clamp z (a.originZ + (((gzn : ℤ) : ℤ) : ℚ) * a.cell)
        (a.originZ + (((gzn : ℤ) : ℤ) : ℚ) * a.cell + a.cell) = z := by
      apply clamp_eq_of_mem
      · push_cast
        linarith
      · push_cast
        linarith
    rw [hclx, hclz]
    simp only [sub_self, mul_zero, zero_mul, add_zero, decide_eq_true_eq]
    exact mul_pos hr hr

theorem c7_witness :
    collidesAt areaC7 (-1) 0 (19/50) = true ∧
    collidesAt areaC7 (9/2) (9/2) (19/50) = true :=
  ⟨c7_amended.1 areaC7 (-1) 0 (19/50) (by decide) (by decide),
   c7_amended.2 areaC7 (9/2) (9/2) (19/50) (by decide) (by decide) (by decide)⟩

theorem mem_allCells (w : PWorld) (cc : ℤ × ℤ) (h1 : 0 ≤ cc.1) (h2 : 0 ≤ cc.2)
    (h3 : cc.1 < (w.gridW : ℤ)) (h4 : cc.2 < (w.gridH : ℤ)) : cc ∈ allCells w := by
  unfold allCells
  rw [List.mem_flatMap]
  refine ⟨cc.2.toNat, by rw [List.mem_range]; omega, ?_⟩
  rw [List.mem_map]
  refine ⟨cc.1.toNat, by rw [List.mem_range]; omega, ?_⟩
  show (((cc.1.toNat : ℕ) : ℤ), ((cc.2.toNat : ℕ) : ℤ)) = cc
  obtain ⟨c1, c2⟩ := cc
  simp only [Prod.mk.injEq]
  constructor <;> omega

theorem foldl_fixed {α β : Type} (f : α → β → α) (a : α) (l : List β)
    (h : ∀ b ∈ l, f a b = a) : l.foldl f a = a := by
  induction l with
  | nil => rfl
  | cons x xs ih =>
    rw [List.foldl_cons, h x (by simp)]
    exact ih (fun b hb => h b (by simp [hb]))

/-- C9: a position that is already collision-free at the given radius (every
wall cell's AABB is at least radius away) is left unchanged by collideSphere,
so a second call returns the same position (idempotence); in the degenerate
case where the position sits exactly at the closest point of a cell's AABB
(distance 0) the guarded push is skipped and the position is returned
unchanged — for every possible sqrt function, so no division by zero is ever
performed; and resolveMovement keeps a collision-free position fixed as well. -/
theorem c9_resolveIdempotent :
    (∀ (w : PWorld) (sq : ℚ → ℚ) (p : ℚ × ℚ) (radius : ℚ),
      (∀ cc ∈ allCells w, w.grid cc.1 cc.2 = true → radius * radius ≤ cellDistSq w p cc) →
      collideSphere w sq p radius = p ∧
      collideSphere w sq (collideSphere w sq p radius) radius = collideSphere w sq p radius) ∧
    (∀ (w : PWorld) (sq : ℚ → ℚ) (radius : ℚ) (p : ℚ × ℚ) (cc : ℤ × ℤ),
      cellDistSq w p cc = 0 → collideCellStep w sq radius p cc = p) ∧
    (∀ (a : SArea) (p : ℚ × ℚ) (radius : ℚ),
      collidesAt a p.1 p.2 radius = false → resolveMovement a p p radius = p) := by
  refine ⟨?_, ?_, ?_⟩
  · intro w sq p radius hfree
    have hstep : ∀ cc ∈ neighborCells (p2WorldToCell w p.1 p.2),
        collideCellStep w sq radius p cc = p := by
      intro cc _
      unfold collideCellStep
      by_cases hb : inBoundsW w cc.1 cc.2 = true
      · rw [if_pos hb]
        by_cases hw : w.grid cc.1 cc.2 = true
        · rw [if_pos hw]
          have hbb := hb
          simp only [inBoundsW, Bool.and_eq_true, decide_eq_true_eq] at hbb
          obtain ⟨⟨⟨hb1, hb2⟩, hb3⟩, hb4⟩ := hbb
          have hle := hfree cc (mem_allCells w cc hb1 hb2 hb3 hb4) hw
          rw [if_neg (fun hco => absurd hco.1 (not_lt.mpr hle))]
        · rw [if_neg hw]
      · rw [if_neg hb]
    have h1 : collideSphere w sq p radius = p := by
      unfold collideSphere
      exact foldl_fixed _ _ _ hstep
    exact ⟨h1, by rw [h1, h1]⟩
  · intro w sq radius p cc h
    unfold collideCellStep
    by_cases hb : inBoundsW w cc.1 cc.2 = true
    · rw [if_pos hb]
      by_cases hw : w.grid cc.1 cc.2 = true
      · rw [if_pos hw]
        rw [if_neg (fun hco => by rw [h] at hco; exact absurd hco.2 (by norm_num))]
      · rw [if_neg hw]
    · rw [if_neg hb]
  · intro a p radius h
    simp [resolveMovement, h]

theorem c9_witness :
    collideSphere wC9 (fun q => q) (10, 10) 1 = (10, 10) ∧
    collideCellStep wC9 (fun q => q) 1 (1, 1) (0, 0) = (1, 1) ∧
    resolveMovement areaC7 (5/2, 5/2) (5/2, 5/2) (19/50) = (5/2, 5/2) :=
  ⟨(c9_resolveIdempotent.1 wC9 (fun q => q) (10, 10) 1 (by decide)).1,
   c9_resolveIdempotent.2.1 wC9 (fun q => q) 1 (1, 1) (0, 0) (by decide),
   c9_resolveIdempotent.2.2 areaC7 (5/2, 5/2) (19/50) (by decide)⟩

/-- C8: counterexample.  Activating the locked exit door while holding no keys
leaves sanity unchanged — no penalty of any kind is applied — and the door
stays locked; moreover a locked pocket door's grid cell is not solid even
before the activation (doors are placed on passable cells), so "its cell stays
solid" fails for every door. -/
theorem c8_counterexample :
    (onDoorInteract pocketSize stC8 dExitLocked solidsP).1.sanity = 50 ∧
    (onDoorInteract pocketSize stC8 dExitLocked solidsP).2.1.locked = true ∧
    solidsP 5 5 = false ∧
    (onDoorInteract pocketSize stC8 dPockLocked solidsP).2.2 5 5 = false := by
  refine ⟨by decide, by decide, by decide, by decide⟩

/-- C8 amended: a locked pocketGate activated without the surface key stays as
it is and costs 4 sanity (clamped at 0); a locked pocketDoor activated with no
pocket keys stays locked and unopened, costs 2 sanity (clamped at 0), and
leaves the grid untouched (its cell is passable even while locked); a locked
exitDoor activation changes nothing at all — in particular no sanity penalty.
All paths are total, so none throws. -/
theorem c8_amended (st : GState) (d : Door) (solids : ℤ → ℤ → Bool) :
    (d.kind = DoorKind.pocketGate → st.hasKey = false →
      (onDoorInteract pocketSize st d solids).1.sanity = clamp (st.sanity - 4) 0 100 ∧
      (onDoorInteract pocketSize st d solids).2.1 = d ∧
      (onDoorInteract pocketSize st d solids).2.2 = solids) ∧
    (d.kind = DoorKind.pocketDoor → d.locked = true → st.keys = 0 →
      (onDoorInteract pocketSize st d solids).1.sanity = clamp (st.sanity - 2) 0 100 ∧
      (onDoorInteract pocketSize st d solids).2.1 = d ∧
      (onDoorInteract pocketSize st d solids).2.2 = solids) ∧
    (d.kind = DoorKind.exitDoor → d.locked = true →
      onDoorInteract pocketSize st d solids = (st, d, solids)) := by
  obtain ⟨k, l, o, cx, cz⟩ := d
  refine ⟨?_, ?_, ?_⟩
  · intro hk hhk
    simp only at hk
    subst hk
    simp only [onDoorInteract]
    rw [if_pos hhk]
    refine ⟨?_, rfl, rfl⟩
    show (damageSanity st 4).sanity = clamp (st.sanity - 4) 0 100
    rw [damageSanity_sanity, if_neg (by norm_num)]
  · intro hk hl hkeys
    simp only at hk hl
    subst hk
    subst hl
    simp only [onDoorInteract, if_true]
    rw [if_neg (by omega : ¬ 0 < st.keys)]
    refine ⟨?_, rfl, rfl⟩
    show (damageSanity st 2).sanity = clamp (st.sanity - 2) 0 100
    rw [damageSanity_sanity, if_neg (by norm_num)]
  · intro hk hl
    simp only at hk hl
    subst hk
    subst hl
    simp only [onDoorInteract, if_true]

theorem c8_witness :
    (onDoorInteract pocketSize stC8 dGateC solidsP).1.sanity = clamp (50 - 4) 0 100 ∧
    (onDoorInteract pocketSize stC8 dPockLocked solidsP).1.sanity = clamp (50 - 2) 0 100 ∧
    onDoorInteract pocketSize stC8 dExitLocked solidsP = (stC8, dExitLocked, solidsP) :=
  ⟨((c8_amended stC8 dGateC solidsP).1 rfl rfl).1,
   ((c8_amended stC8 dPockLocked solidsP).2.1 rfl rfl rfl).1,
   (c8_amended stC8 dExitLocked solidsP).2.2 rfl rfl⟩

/-- C10: while in the pocket with an exit door present, the per-tick exit
unlock update leaves the exit door locked exactly when strictly fewer than
CFG.pocket.keyCount keys are held (so it unlocks at the threshold and
re-locks whenever the count drops below it again), and opening a locked
pocket door consumes exactly one key. -/
theorem c10_exitUnlock (st : GState) (d dp : Door) (solids : ℤ → ℤ → Bool)
    (hin : st.inPocket = true) (hk : dp.kind = DoorKind.pocketDoor)
    (hl : dp.locked = true) (hkeys : 0 < st.keys) :
    ((updateExitUnlock st true d).locked = true ↔ st.keys < keyCount) ∧
    (onDoorInteract pocketSize st dp solids).1.keys = st.keys - 1 := by
  constructor
  · unfold updateExitUnlock
    rw [hin]
    rw [if_neg (by decide : ¬ (true : Bool) = false), if_neg (by decide : ¬ (true : Bool) = false)]
    by_cases h : keyCount ≤ st.keys
    · rw [if_pos h]
      show (false = true ↔ st.keys < keyCount)
      constructor
      · intro hc
        exact Bool.noConfusion hc
      · intro hc
        exact absurd hc (by omega)
    · rw [if_neg h]
      show (true = true ↔ st.keys < keyCount)
      constructor
      · intro _
        omega
      · intro _
        rfl
  · obtain ⟨k, l, o, cx, cz⟩ := dp
    simp only at hk hl
    subst hk
    subst hl
    simp only [onDoorInteract, if_true]
    rw [if_pos hkeys]

theorem c10_witness :
    ((updateExitUnlock ⟨100, 80, false, 2, true, []⟩ true dExitLocked).locked = true) ∧
    (onDoorInteract pocketSize ⟨100, 80, false, 2, true, []⟩ dPockLocked solidsP).1.keys = 1 := by
  have h := c10_exitUnlock ⟨100, 80, false, 2, true, []⟩ dExitLocked dPockLocked solidsP
    rfl rfl rfl (by norm_num)
  exact ⟨h.1.mpr (by decide), h.2⟩

end Game4
